import Mathlib

/-!
Verification of the declaration-emission engine in src/codegen/general.rs.
Every definition is a shallow embedding of the corresponding Rust item;
writers that emit lines to a sink are modelled as functions returning the
list of lines they write, in order.  Items of the repository that are not
part of the shown source (the Version type, the Imports collection, the
functions Info record, the tabs helper and the namespace registry) are
modelled from the specification and marked as such in their doc comments.
-/

namespace Gir

/-- Modelled from the spec: version::Version is not part of the shown
source.  A VersionConstraint is a minimum-version value; the model is a
major/minor/patch triple compared lexicographically, matching the derived
ordering of a tuple of numbers. -/
structure Version where
  major : Nat
  minor : Nat
  patch : Nat
deriving DecidableEq

/-- Strict lexicographic order on versions. -/
def Version.lt (a b : Version) : Prop :=
  a.major < b.major ∨
    (a.major = b.major ∧
      (a.minor < b.minor ∨ (a.minor = b.minor ∧ a.patch < b.patch)))

instance (a b : Version) : Decidable (Version.lt a b) := by
  unfold Version.lt
  infer_instance

/-- Boolean form of the strict order, used where the Rust code compares
with the greater-than operator of the derived ordering. -/
def Version.ltb (a b : Version) : Bool :=
  decide (Version.lt a b)

/-- Non-strict order: strictly below or equal. -/
def Version.le (a b : Version) : Prop :=
  Version.lt a b ∨ a = b

instance (a b : Version) : Decidable (Version.le a b) := by
  unfold Version.le
  infer_instance

/-- Boolean form of the non-strict order. -/
def Version.leb (a b : Version) : Bool :=
  decide (Version.le a b)

theorem Version.lt_asymm {a b : Version} (h : Version.lt a b) :
    ¬ Version.lt b a := by
  revert h
  unfold Version.lt
  intro h hba
  rcases a with ⟨a1, a2, a3⟩
  rcases b with ⟨b1, b2, b3⟩
  simp only at h hba
  omega

theorem Version.lt_irrefl (a : Version) : ¬ Version.lt a a := by
  unfold Version.lt
  rcases a with ⟨a1, a2, a3⟩
  simp only
  omega

theorem Version.ltb_eq_false_of_le {a b : Version}
    (h : Version.le a b) : Version.ltb b a = false := by
  rcases h with h | h
  · simpa [Version.ltb] using Version.lt_asymm h
  · subst h
    simpa [Version.ltb] using Version.lt_irrefl a

/-- Modelled from the spec: the textual form a version takes inside a
conditional-compilation guard (a feature name keyed to the version); the
rendering function lives outside the shown source. -/
def Version.to_cfg (v : Version) : String :=
  "feature = \"v" ++ toString v.major ++ "_" ++ toString v.minor ++ "\""

/-- Modelled from the spec: writer::primitives::tabs is not part of the
shown source; indentation uses a fixed per-level unit (one tab). -/
def tabs (indent : Nat) : String :=
  String.mk (List.replicate indent '\t')

/-- A type identity: the namespace it originates from and an index inside
that namespace. -/
structure TypeId where
  ns_id : Nat
  id : Nat
deriving DecidableEq

/-- Modelled from the spec: library::Type is not part of the shown source;
section 4.2 of the spec classifies an ancestor solely by whether its
underlying kind is a class or an interface. -/
inductive TypeKind where
  | Class : TypeKind
  | Interface : TypeKind
deriving DecidableEq

/-- Modelled from the spec: the availability status of an ancestor is
ignored versus available; the status type itself is not part of the shown
source. -/
inductive GStatus where
  | Available : GStatus
  | Ignored : GStatus
deriving DecidableEq

/-- The predicate the source calls as status.ignored(). -/
def GStatus.ignored : GStatus → Bool
  | GStatus.Available => false
  | GStatus.Ignored => true

/-- analysis::general::StatusedTypeId: an ancestor reference carrying its
type identity, display name and availability status. -/
structure StatusedTypeId where
  type_id : TypeId
  name : String
  status : GStatus
deriving DecidableEq

/-- One namespace of the registry; only its crate name is read here. -/
structure Namespace where
  crate_name : String

/-- The configuration part the emission engine reads. -/
structure Config where
  min_cfg_version : Version

/-- The resolved library: maps a type identity to its kind. -/
structure Library where
  type_ : TypeId → TypeKind

/-- The read-only environment: configuration, namespace registry, the
primary sys crate name, the resolved library and the too-low-version
predicate (the latter is an upstream policy this component only calls). -/
structure Env where
  config : Config
  namespaces : Nat → Namespace
  main_sys_crate_name : String
  library : Library
  too_low : Option Version → Bool

/-- The method the source calls as env.is_too_low_version(v). -/
def Env.is_too_low_version (env : Env) (v : Option Version) : Bool :=
  env.too_low v

/-- Modelled from the spec: analysis::namespaces::MAIN, the namespace the
generated crate itself (the type being declared) belongs to. -/
def namespaces.MAIN : Nat := 1

/-- version_condition_string (general.rs lines 362-380): a guard is
produced only when the version strictly exceeds the configured minimum. -/
def version_condition_string (env : Env) (version : Option Version)
    (commented : Bool) (indent : Nat) : Option String :=
  match version with
  | some v =>
    if Version.ltb env.config.min_cfg_version v then
      let comment := if commented then "//" else ""
      some (tabs indent ++ comment ++ "#[cfg(any(" ++ Version.to_cfg v ++
        ", feature = \"dox\"))]")
    else
      none
  | none => none

/-- version_condition (general.rs lines 349-360): writes the guard line
when there is one. -/
def version_condition (env : Env) (version : Option Version)
    (commented : Bool) (indent : Nat) : List String :=
  (version_condition_string env version commented indent).toList

/-- not_version_condition (general.rs lines 382-399): writes a negated
guard line whenever a version is present; it takes no environment and
performs no comparison against the configured minimum. -/
def not_version_condition (version : Option Version)
    (commented : Bool) (indent : Nat) : List String :=
  match version with
  | some v =>
    let comment := if commented then "//" else ""
    [tabs indent ++ comment ++ "#[cfg(any(not(" ++ Version.to_cfg v ++
      "), feature = \"dox\"))]"]
  | none => []

/-- cfg_deprecated_string (general.rs lines 328-347). -/
def cfg_deprecated_string (deprecated : Option Version) (env : Env)
    (commented : Bool) (indent : Nat) : Option String :=
  let comment := if commented then "//" else ""
  if env.is_too_low_version deprecated then
    some (tabs indent ++ comment ++ "#[deprecated]")
  else
    match deprecated with
    | some v =>
      some (tabs indent ++ comment ++ "#[cfg_attr(" ++ Version.to_cfg v ++
        ", deprecated)]")
    | none => none

/-- cfg_deprecated (general.rs lines 315-326). -/
def cfg_deprecated (env : Env) (deprecated : Option Version)
    (commented : Bool) (indent : Nat) : List String :=
  (cfg_deprecated_string deprecated env commented indent).toList

/-- format_parent_name (general.rs lines 62-75): an ancestor from the main
namespace is rendered unqualified; any other ancestor is prefixed by the
crate name registered for its namespace. -/
def format_parent_name (env : Env) (p : StatusedTypeId) : String :=
  if p.type_id.ns_id = namespaces.MAIN then
    p.name
  else
    (env.namespaces p.type_id.ns_id).crate_name ++ "::" ++ p.name

/-- The ancestor list after dropping every ancestor whose status is
ignored (general.rs lines 107-111). -/
def surviving_parents (parents : List StatusedTypeId) : List StatusedTypeId :=
  parents.filter (fun p => !p.status.ignored)

/-- The prerequisites of an interface owner: every surviving ancestor,
rendered (general.rs lines 127-130). -/
def prerequisites (env : Env) (parents : List StatusedTypeId) : List String :=
  (surviving_parents parents).map (format_parent_name env)

/-- The surviving ancestors whose underlying kind is an interface
(general.rs lines 144-155, before rendering). -/
def object_interfaces (env : Env) (parents : List StatusedTypeId) :
    List StatusedTypeId :=
  (surviving_parents parents).filter (fun p =>
    match env.library.type_ p.type_id with
    | TypeKind.Interface => !p.status.ignored
    | _ => false)

/-- The surviving ancestors whose underlying kind is a class
(general.rs lines 157-168, before rendering). -/
def object_classes (env : Env) (parents : List StatusedTypeId) :
    List StatusedTypeId :=
  (surviving_parents parents).filter (fun p =>
    match env.library.type_ p.type_id with
    | TypeKind.Class => !p.status.ignored
    | _ => false)

/-- The extends/implements clause of a concrete owner (general.rs lines
170-180). -/
def object_parents_string (env : Env) (parents : List StatusedTypeId) :
    String :=
  let interfaces := (object_interfaces env parents).map (format_parent_name env)
  let classes := (object_classes env parents).map (format_parent_name env)
  (if classes.isEmpty then "" else " @extends " ++ ", ".intercalate classes) ++
    (if interfaces.isEmpty then ""
     else
       (if classes.isEmpty then "" else ",") ++ " @implements " ++
         ", ".intercalate interfaces)

/-- define_object_type (general.rs lines 77-201), as the list of lines it
writes. -/
def define_object_type (env : Env) (type_name glib_name : String)
    (glib_class_name rust_class_name : Option String)
    (glib_func_name : String) (is_interface : Bool)
    (parents : List StatusedTypeId) : List String :=
  let sys_crate_name := env.main_sys_crate_name
  let class_name :=
    match glib_class_name with
    | some s => ", " ++ sys_crate_name ++ "::" ++ s
    | none => ""
  let rust_class_part :=
    match rust_class_name with
    | some s => ", " ++ s
    | none => ""
  let kind_name := if is_interface then "Interface" else "Object"
  let survivors := surviving_parents parents
  let head := "\tpub struct " ++ type_name ++ "(" ++ kind_name ++ "<" ++
    sys_crate_name ++ "::" ++ glib_name ++ class_name ++ rust_class_part ++ ">)"
  let struct_line :=
    if survivors.isEmpty then
      head ++ ";"
    else if is_interface then
      head ++ " @requires " ++ ", ".intercalate (prerequisites env parents) ++ ";"
    else
      head ++ object_parents_string env parents ++ ";"
  ["", "glib_wrapper! \x7b", struct_line, "", "\tmatch fn \x7b",
   "\t\tget_type => || " ++ sys_crate_name ++ "::" ++ glib_func_name ++ "(),",
   "\t\x7d", "\x7d"]

/-- config::derives::Derive: a list of derive names and an optional
feature condition (the fields the source reads). -/
structure Derive where
  names : List String
  cfg_condition : Option String
deriving DecidableEq

/-- derives (general.rs lines 433-450): one attribute line per Derive. -/
def derives (derives_list : List Derive) (indent : Nat) : List String :=
  derives_list.map (fun derive =>
    let s :=
      match derive.cfg_condition with
      | some condition =>
        "#[cfg_attr(" ++ condition ++ ", derive(" ++
          ", ".intercalate derive.names ++ "))]"
      | none => "#[derive(" ++ ", ".intercalate derive.names ++ ")]"
    tabs indent ++ s)

/-- define_boxed_type (general.rs lines 203-241), as the list of lines it
writes. -/
def define_boxed_type (env : Env) (type_name glib_name copy_fn free_fn : String)
    (get_type_fn : Option String) (derive : List Derive) : List String :=
  let sys_crate_name := env.main_sys_crate_name
  ["", "glib_wrapper! \x7b"] ++ derives derive 1 ++
    ["\tpub struct " ++ type_name ++ "(Boxed<" ++ sys_crate_name ++ "::" ++
       glib_name ++ ">);",
     "",
     "\tmatch fn \x7b",
     "\t\tcopy => |ptr| " ++ sys_crate_name ++ "::" ++ copy_fn ++
       "(mut_override(ptr)),",
     "\t\tfree => |ptr| " ++ sys_crate_name ++ "::" ++ free_fn ++ "(ptr),"] ++
    (match get_type_fn with
     | some g => ["\t\tget_type => || " ++ sys_crate_name ++ "::" ++ g ++ "(),"]
     | none => []) ++
    ["\t\x7d", "\x7d"]

/-- define_auto_boxed_type (general.rs lines 243-279), as the list of
lines it writes. -/
def define_auto_boxed_type (env : Env) (type_name glib_name get_type_fn : String)
    (derive : List Derive) : List String :=
  let sys_crate_name := env.main_sys_crate_name
  ["", "glib_wrapper! \x7b"] ++ derives derive 1 ++
    ["\tpub struct " ++ type_name ++ "(Boxed<" ++ sys_crate_name ++ "::" ++
       glib_name ++ ">);",
     "",
     "\tmatch fn \x7b",
     "\t\tcopy => |ptr| gobject_sys::g_boxed_copy(" ++ sys_crate_name ++ "::" ++
       get_type_fn ++ "(), ptr as *mut _) as *mut " ++ sys_crate_name ++ "::" ++
       glib_name ++ ",",
     "\t\tfree => |ptr| gobject_sys::g_boxed_free(" ++ sys_crate_name ++ "::" ++
       get_type_fn ++ "(), ptr as *mut _),",
     "\t\tget_type => || " ++ sys_crate_name ++ "::" ++ get_type_fn ++ "(),",
     "\t\x7d", "\x7d"]

/-- define_shared_type (general.rs lines 281-313), as the list of lines it
writes. -/
def define_shared_type (env : Env) (type_name glib_name ref_fn unref_fn : String)
    (get_type_fn : Option String) (derive : List Derive) : List String :=
  let sys_crate_name := env.main_sys_crate_name
  ["", "glib_wrapper! \x7b"] ++ derives derive 1 ++
    ["\tpub struct " ++ type_name ++ "(Shared<" ++ sys_crate_name ++ "::" ++
       glib_name ++ ">);",
     "",
     "\tmatch fn \x7b",
     "\t\tref => |ptr| " ++ sys_crate_name ++ "::" ++ ref_fn ++ "(ptr),",
     "\t\tunref => |ptr| " ++ sys_crate_name ++ "::" ++ unref_fn ++ "(ptr),"] ++
    (match get_type_fn with
     | some g => ["\t\tget_type => || " ++ sys_crate_name ++ "::" ++ g ++ "(),"]
     | none => []) ++
    ["\t\x7d", "\x7d"]

/-- Modelled from the spec: one entry of analysis::imports::Imports (the
collection itself is not part of the shown source): a module path, an
optional version constraint and the feature constraints; the spec states
that iteration order over the collection is insertion order and is
preserved verbatim in the output, so the collection is a list iterated in
order. -/
structure ImportEntry where
  name : String
  version : Option Version
  constraints : List String
deriving DecidableEq

/-- The lines the body of the uses loop writes for one entry
(general.rs lines 48-57). -/
def import_entry_lines (env : Env) (name : String) (version : Option Version)
    (constraints : List String) : List String :=
  (match constraints with
   | [] => []
   | [c] => ["#[cfg(feature = \"" ++ c ++ "\")]"]
   | cs =>
     ["#[cfg(any(" ++
        ", ".intercalate (cs.map (fun c => "feature = \"" ++ c ++ "\"")) ++
        "))]"]) ++
    version_condition env version false 0 ++
    ["use " ++ name ++ ";"]

/-- uses (general.rs lines 46-60): a leading blank line, then the entries
in iteration order. -/
def uses (env : Env) (imports : List ImportEntry) : List String :=
  "" :: imports.flatMap (fun e => import_entry_lines env e.name e.version e.constraints)

/-- The visibility of an analysed function; the source only asks whether
it is hidden. -/
structure Visibility where
  hidden : Bool
deriving DecidableEq

/-- The analysed parameters of a function; the source only asks whether
the Rust-side parameter list is empty. -/
structure Parameters where
  rust_parameters : List String
deriving DecidableEq

/-- Modelled from the spec: analysis::functions::Info is not part of the
shown source; these are the fields declare_default_from_new reads. -/
structure Info where
  name : String
  visibility : Visibility
  parameters : Parameters
  deprecated_version : Option Version
  version : Option Version
deriving DecidableEq

/-- declare_default_from_new (general.rs lines 472-492), as the list of
lines it writes. -/
def declare_default_from_new (env : Env) (name : String)
    (functions : List Info) : List String :=
  match functions.find? (fun f =>
      !f.visibility.hidden && f.name == "new" &&
        f.parameters.rust_parameters.isEmpty) with
  | some func =>
    [""] ++ cfg_deprecated env func.deprecated_version false 0 ++
      version_condition env func.version false 0 ++
      ["impl Default for " ++ name ++ " \x7b",
       "    fn default() -> Self \x7b",
       "        Self::new()",
       "    \x7d",
       "\x7d"]
  | none => []

/-- escape_string (general.rs lines 495-507) on the character list of the
input: a quote or backslash is emitted with a backslash pushed first,
every other character is emitted unchanged. -/
def escape_chars : List Char → List Char
  | [] => []
  | c :: rest =>
    (if c = '"' ∨ c = '\\' then ['\\', c] else [c]) ++ escape_chars rest

/-- escape_string (general.rs lines 495-507). -/
def escape_string (s : String) : String :=
  String.mk (escape_chars s.data)

/-- A character list is well escaped when every quote or backslash in it
occurs only as the second character of a two-character sequence backslash
then quote, or backslash then backslash. -/
inductive WellEscaped : List Char → Prop
  | nil : WellEscaped []
  | esc (c : Char) (h : c = '"' ∨ c = '\\') (rest : List Char) :
      WellEscaped rest → WellEscaped ('\\' :: c :: rest)
  | plain (c : Char) (h : ¬(c = '"' ∨ c = '\\')) (rest : List Char) :
      WellEscaped rest → WellEscaped (c :: rest)

/-- Collapses each two-character escape sequence back to its second
character; used to state that escaping passes every character through
unchanged and in order. -/
def unescape_chars : List Char → List Char
  | [] => []
  | c :: rest =>
    if c = '\\' then
      match rest with
      | [] => [c]
      | c2 :: rest2 => c2 :: unescape_chars rest2
    else
      c :: unescape_chars rest

/-- A sink that the emitters write lines to, one write per line: a write
either appends the line, or fails with the error value err once the
failure budget (the number of writes the sink still accepts) is spent; a
budget of none never fails.  This models an output stream whose write
calls can return an input/output error. -/
def emit_lines {e : Type} (err : e) :
    List String → Option Nat → List String × Except e Unit
  | [], _ => ([], Except.ok ())
  | _ :: _, some 0 => ([], Except.error err)
  | l :: rest, some (n + 1) =>
    let r := emit_lines err rest (some n)
    (l :: r.1, r.2)
  | l :: rest, none =>
    let r := emit_lines err rest none
    (l :: r.1, r.2)

/-- A concrete environment used by the witness theorems: minimum
configured version 3.16, the main namespace is 1, namespace 2 is
registered under the crate name gdk, and nothing counts as a too-low
version. -/
def env0 : Env :=
  { config := { min_cfg_version := { major := 3, minor := 16, patch := 0 } }
    namespaces := fun n => if n = 2 then { crate_name := "gdk" } else { crate_name := "glib" }
    main_sys_crate_name := "gtk_sys"
    library := { type_ := fun t => if t.id % 2 = 0 then TypeKind.Class else TypeKind.Interface }
    too_low := fun _ => false }

/-- A concrete available class ancestor from the main namespace. -/
def pClass : StatusedTypeId :=
  { type_id := { ns_id := 1, id := 0 }, name := "Widget", status := GStatus.Available }

/-- A concrete available interface ancestor from namespace 2. -/
def pIface : StatusedTypeId :=
  { type_id := { ns_id := 2, id := 1 }, name := "Buildable", status := GStatus.Available }

/-- A concrete ignored ancestor. -/
def pIgnored : StatusedTypeId :=
  { type_id := { ns_id := 1, id := 2 }, name := "Dropped", status := GStatus.Ignored }

/-- The concrete ancestor list used by the witness theorems. -/
def parents0 : List StatusedTypeId := [pClass, pIgnored, pIface]

/-- A concrete hidden zero-parameter constructor named new. -/
def fHiddenNew : Info :=
  { name := "new", visibility := { hidden := true },
    parameters := { rust_parameters := [] },
    deprecated_version := none, version := none }

/-- A concrete visible one-parameter constructor named new. -/
def fNewWithParam : Info :=
  { name := "new", visibility := { hidden := false },
    parameters := { rust_parameters := ["value"] },
    deprecated_version := none, version := none }

/-- A concrete visible zero-parameter constructor named new. -/
def fNew : Info :=
  { name := "new", visibility := { hidden := false },
    parameters := { rust_parameters := [] },
    deprecated_version := none,
    version := some { major := 3, minor := 18, patch := 0 } }

theorem emit_lines_ok {e : Type} (err : e) (ls : List String) :
    emit_lines err ls none = (ls, Except.ok ()) := by
  induction ls with
  | nil => rfl
  | cons l rest ih => simp [emit_lines, ih]

theorem emit_lines_fail {e : Type} (err : e) (ls : List String) (k : Nat)
    (h : k < ls.length) :
    emit_lines err ls (some k) = (ls.take k, Except.error err) := by
  induction ls generalizing k with
  | nil => simp at h
  | cons l rest ih =>
    cases k with
    | zero => rfl
    | succ n =>
      have hn : n < rest.length := by
        simpa using Nat.lt_of_succ_lt_succ h
      simp [emit_lines, ih n hn]

theorem well_escaped_escape_chars (l : List Char) :
    WellEscaped (escape_chars l) := by
  induction l with
  | nil => exact WellEscaped.nil
  | cons c rest ih =>
    by_cases h : c = '"' ∨ c = '\\'
    · simpa [escape_chars, h] using WellEscaped.esc c h _ ih
    · simpa [escape_chars, h] using WellEscaped.plain c h _ ih

theorem unescape_escape_chars (l : List Char) :
    unescape_chars (escape_chars l) = l := by
  induction l with
  | nil => rfl
  | cons c rest ih =>
    by_cases h : c = '"' ∨ c = '\\'
    · simp only [escape_chars, if_pos h, List.cons_append, List.nil_append]
      rw [unescape_chars.eq_def]
      simp [ih]
    · push_neg at h
      simp only [escape_chars, if_neg (by tauto : ¬(c = '"' ∨ c = '\\')),
        List.singleton_append]
      rw [unescape_chars.eq_def]
      simp only [if_neg h.2]
      rw [ih]

theorem length_escape_chars (l : List Char) :
    (escape_chars l).length ≤ 2 * l.length := by
  induction l with
  | nil => simp [escape_chars]
  | cons c rest ih =>
    by_cases h : c = '"' ∨ c = '\\'
    · simp only [escape_chars, if_pos h, List.length_append, List.length_cons,
        List.length_nil]
      omega
    · simp only [escape_chars, if_neg h, List.length_append, List.length_cons,
        List.length_nil]
      omega

theorem version_condition_string_none_of_le (env : Env) (v : Version)
    (commented : Bool) (indent : Nat)
    (h : Version.le v env.config.min_cfg_version) :
    version_condition_string env (some v) commented indent = none := by
  simp [version_condition_string, Version.ltb_eq_false_of_le h]

theorem version_condition_string_some_of_lt (env : Env) (v : Version)
    (commented : Bool) (indent : Nat)
    (h : Version.lt env.config.min_cfg_version v) :
    version_condition_string env (some v) commented indent =
      some (tabs indent ++ (if commented then "//" else "") ++
        "#[cfg(any(" ++ Version.to_cfg v ++ ", feature = \"dox\"))]") := by
  have hb : Version.ltb env.config.min_cfg_version v = true := by
    simpa [Version.ltb] using h
  simp [version_condition_string, hb]

theorem string_append_assoc (a b c : String) :
    (a ++ b) ++ c = a ++ (b ++ c) := by
  rcases a with ⟨la⟩
  rcases b with ⟨lb⟩
  rcases c with ⟨lc⟩
  show String.mk ((la ++ lb) ++ lc) = String.mk (la ++ (lb ++ lc))
  rw [List.append_assoc]

theorem find?_pred_of_eq_some {α : Type} {p : α → Bool} {l : List α} {a : α}
    (h : l.find? p = some a) : p a = true :=
  List.find?_some h

theorem new_pred_iff (f : Info) :
    (!f.visibility.hidden && f.name == "new" &&
        f.parameters.rust_parameters.isEmpty) = true ↔
      (f.visibility.hidden = false ∧ f.name = "new" ∧
        f.parameters.rust_parameters = []) := by
  simp [Bool.and_eq_true, List.isEmpty_iff, and_assoc]

/-- C5: for every string, the escaped output holds no raw quote or
backslash outside the two-character escape sequences, collapsing those
sequences recovers every character of the input unchanged and in order,
the output is at most twice as long as the input, and the empty string
escapes to the empty string. -/
theorem C5_escape_string_correct (s : String) :
    WellEscaped (escape_string s).data ∧
    unescape_chars (escape_string s).data = s.data ∧
    (escape_string s).length ≤ 2 * s.length ∧
    escape_string ("") = "" := by
  refine ⟨well_escaped_escape_chars s.data, unescape_escape_chars s.data, ?_, rfl⟩
  show (escape_chars s.data).length ≤ 2 * s.data.length
  exact length_escape_chars s.data

/-- C5 witness: a concrete evaluation of the escaping function, matching
the unit test of the source, together with the claim instantiated at that
input. -/
theorem C5_escape_string_example :
    escape_string ("\'\"\\") = "\'\\\"\\\\" ∧
    unescape_chars (escape_string ("\'\"\\")).data = ("\'\"\\").data ∧
    (escape_string ("\'\"\\")).length ≤ 2 * ("\'\"\\" : String).length :=
  ⟨by decide, (C5_escape_string_correct ("\'\"\\")).2.1,
    (C5_escape_string_correct ("\'\"\\")).2.2.1⟩

/-- C4: the version guard yields none when the version is absent or at
most the configured minimum, and yields a guard containing the
documentation-build escape hatch whenever the version strictly exceeds
the configured minimum. -/
theorem C4_version_guard (env : Env) (commented : Bool) (indent : Nat) :
    version_condition_string env none commented indent = none ∧
    (∀ v : Version, Version.le v env.config.min_cfg_version →
      version_condition_string env (some v) commented indent = none) ∧
    (∀ v : Version, Version.lt env.config.min_cfg_version v →
      ∃ a b : String,
        version_condition_string env (some v) commented indent =
          some (a ++ "feature = \"dox\"" ++ b)) := by
  refine ⟨rfl,
    fun v h => version_condition_string_none_of_le env v commented indent h,
    fun v h => ?_⟩
  refine ⟨tabs indent ++ (if commented then "//" else "") ++ "#[cfg(any(" ++
    (Version.to_cfg v ++ ", "), "))]", ?_⟩
  rw [version_condition_string_some_of_lt env v commented indent h]
  have h1 : (", " : String) ++ ("feature = \"dox\"" ++ "))]") =
      ", feature = \"dox\"))]" := rfl
  congr 1
  simp only [string_append_assoc]
  rw [← h1]

/-- C4 witness: at the concrete environment with minimum 3.16, version
3.16 produces no guard and version 3.18 produces a guard with the
documentation-build escape hatch. -/
theorem C4_version_guard_example :
    version_condition_string env0 (some { major := 3, minor := 16, patch := 0 })
        false 0 = none ∧
    version_condition_string env0 (some { major := 3, minor := 18, patch := 0 })
        false 0 =
      some ("#[cfg(any(feature = \"v3_18\", feature = \"dox\"))]") :=
  ⟨(C4_version_guard env0 false 0).2.1 _ (by decide), by decide⟩

/-- C2 counterexample: with the configured minimum being 3.16 (the
environment env0), the negated version guard for a version exactly equal
to that minimum still produces an output line; the claim states that it
produces no output line for a version equal to or below the configured
minimum. -/
theorem C2_counterexample :
    Version.le { major := 3, minor := 16, patch := 0 }
        env0.config.min_cfg_version ∧
    not_version_condition (some { major := 3, minor := 16, patch := 0 })
        false 0 ≠ [] := by
  constructor
  · decide
  · decide

/-- C2 amended: only the version guard compares against the configured
minimum: version_condition_string produces no guard for a version at most
the configured minimum, while not_version_condition takes no environment
at all and emits its guard line whenever a version is present, whatever
the configured minimum is, and emits nothing only when the version is
absent; cfg_deprecated_string likewise emits its version-keyed marker for
any present version that is not a too-low version, without consulting the
configured minimum. -/
theorem C2_guard_minimum_policy (env : Env) (commented : Bool) (indent : Nat) :
    (∀ v : Version, Version.le v env.config.min_cfg_version →
      version_condition_string env (some v) commented indent = none) ∧
    not_version_condition none commented indent = [] ∧
    (∀ v : Version,
      not_version_condition (some v) commented indent =
        [tabs indent ++ (if commented then "//" else "") ++
          "#[cfg(any(not(" ++ Version.to_cfg v ++ "), feature = \"dox\"))]"]) ∧
    (∀ v : Version, env.is_too_low_version (some v) = false →
      cfg_deprecated_string (some v) env commented indent =
        some (tabs indent ++ (if commented then "//" else "") ++
          "#[cfg_attr(" ++ Version.to_cfg v ++ ", deprecated)]")) := by
  refine ⟨fun v h => version_condition_string_none_of_le env v commented indent h,
    rfl, fun v => rfl, fun v h => ?_⟩
  simp [cfg_deprecated_string, h]

/-- C2 witness: the amended behaviour at concrete inputs: a version below
the minimum yields no version guard, and the negated guard at exactly the
minimum yields its concrete line. -/
theorem C2_guard_minimum_policy_example :
    version_condition_string env0 (some { major := 3, minor := 15, patch := 0 })
        false 0 = none ∧
    not_version_condition (some { major := 3, minor := 16, patch := 0 })
        false 0 =
      ["#[cfg(any(not(feature = \"v3_16\"), feature = \"dox\"))]"] :=
  ⟨(C2_guard_minimum_policy env0 false 0).1 _ (by decide),
    ((C2_guard_minimum_policy env0 false 0).2.2.1 _).trans (by decide)⟩

/-- C3: a rendered ancestor name is unqualified exactly when the ancestor
originates from the main namespace, the namespace of the type being
declared; otherwise it is the crate name registered for its namespace,
then two colons, then its name, which always differs from the unqualified
name. -/
theorem C3_parent_name_qualification (env : Env) (p : StatusedTypeId) :
    (format_parent_name env p = p.name ↔ p.type_id.ns_id = namespaces.MAIN) ∧
    (p.type_id.ns_id ≠ namespaces.MAIN →
      format_parent_name env p =
        (env.namespaces p.type_id.ns_id).crate_name ++ "::" ++ p.name) := by
  by_cases h : p.type_id.ns_id = namespaces.MAIN
  · refine ⟨⟨fun _ => h, fun _ => ?_⟩, fun hne => absurd h hne⟩
    simp [format_parent_name, h]
  · have hq : format_parent_name env p =
        (env.namespaces p.type_id.ns_id).crate_name ++ "::" ++ p.name := by
      simp [format_parent_name, h]
    refine ⟨⟨fun he => ?_, fun hm => absurd hm h⟩, fun _ => hq⟩
    exfalso
    rw [hq] at he
    have hl := congrArg String.length he
    rw [String.length_append, String.length_append] at hl
    have : ("::" : String).length = 2 := rfl
    omega

/-- C3 witness: the concrete ancestors: the main-namespace ancestor keeps
its bare name, the namespace-2 ancestor gains the gdk crate prefix. -/
theorem C3_parent_name_example :
    format_parent_name env0 pClass = "Widget" ∧
    format_parent_name env0 pIface = "gdk::Buildable" :=
  ⟨(C3_parent_name_qualification env0 pClass).1.mpr (by decide),
    ((C3_parent_name_qualification env0 pIface).2 (by decide)).trans (by decide)⟩

/-- C1: no ignored ancestor survives the filter or reaches any partition;
for an interface owner every surviving ancestor is rendered into the
single prerequisites list, in order; for a concrete owner each surviving
ancestor lies in exactly one of the class and interface partitions,
membership decided solely by the underlying kind of the ancestor, and
each partition preserves the relative order of the surviving list. -/
theorem C1_ancestor_partition (env : Env) (parents : List StatusedTypeId) :
    (∀ p ∈ surviving_parents parents, p.status.ignored = false) ∧
    (∀ p ∈ surviving_parents parents,
      format_parent_name env p ∈ prerequisites env parents) ∧
    (prerequisites env parents).length = (surviving_parents parents).length ∧
    (∀ p ∈ surviving_parents parents,
      (p ∈ object_classes env parents ↔
        env.library.type_ p.type_id = TypeKind.Class) ∧
      (p ∈ object_interfaces env parents ↔
        env.library.type_ p.type_id = TypeKind.Interface)) ∧
    (∀ p ∈ surviving_parents parents,
      (p ∈ object_classes env parents ∧ p ∉ object_interfaces env parents) ∨
      (p ∈ object_interfaces env parents ∧ p ∉ object_classes env parents)) ∧
    List.Sublist (object_classes env parents) (surviving_parents parents) ∧
    List.Sublist (object_interfaces env parents) (surviving_parents parents) ∧
    (∀ p ∈ object_classes env parents, p.status.ignored = false) ∧
    (∀ p ∈ object_interfaces env parents, p.status.ignored = false) := by
  have hsurv : ∀ p ∈ surviving_parents parents, p.status.ignored = false := by
    intro p hp
    have := (List.mem_filter.mp hp).2
    simpa using this
  have hmem : ∀ p ∈ surviving_parents parents,
      (p ∈ object_classes env parents ↔
        env.library.type_ p.type_id = TypeKind.Class) ∧
      (p ∈ object_interfaces env parents ↔
        env.library.type_ p.type_id = TypeKind.Interface) := by
    intro p hp
    have hig := hsurv p hp
    constructor
    · constructor
      · intro hc
        have := (List.mem_filter.mp hc).2
        revert this
        cases hk : env.library.type_ p.type_id <;> simp
      · intro hk
        refine List.mem_filter.mpr ⟨hp, ?_⟩
        rw [hk]
        simp [hig]
    · constructor
      · intro hc
        have := (List.mem_filter.mp hc).2
        revert this
        cases hk : env.library.type_ p.type_id <;> simp
      · intro hk
        refine List.mem_filter.mpr ⟨hp, ?_⟩
        rw [hk]
        simp [hig]
  have hcsub : List.Sublist (object_classes env parents)
      (surviving_parents parents) := List.filter_sublist _
  have hisub : List.Sublist (object_interfaces env parents)
      (surviving_parents parents) := List.filter_sublist _
  refine ⟨hsurv,
    fun p hp => List.mem_map_of_mem (format_parent_name env) hp,
    List.length_map _ _,
    hmem,
    fun p hp => ?_,
    hcsub, hisub,
    fun p hp => hsurv p (hcsub.mem hp),
    fun p hp => hsurv p (hisub.mem hp)⟩
  rcases hmem p hp with ⟨hc, hi⟩
  cases hk : env.library.type_ p.type_id
  · left
    refine ⟨hc.mpr hk, fun habs => ?_⟩
    rw [hi.mp habs] at hk
    cases hk
  · right
    refine ⟨hi.mpr hk, fun habs => ?_⟩
    rw [hc.mp habs] at hk
    cases hk

/-- C1 witness: in the concrete ancestor list, the ignored ancestor is
dropped, the class ancestor lands in the class partition only, and the
interface ancestor lands in the interface partition only, with the
rendered prerequisites containing both survivors. -/
theorem C1_ancestor_partition_example :
    pClass ∈ object_classes env0 parents0 ∧
    pIface ∈ object_interfaces env0 parents0 ∧
    pClass ∉ object_interfaces env0 parents0 ∧
    surviving_parents parents0 = [pClass, pIface] := by
  have h := C1_ancestor_partition env0 parents0
  refine ⟨(h.2.2.2.1 pClass (by decide)).1.mpr (by decide),
    (h.2.2.2.1 pIface (by decide)).2.mpr (by decide),
    fun habs => ?_, by decide⟩
  have hk := (h.2.2.2.1 pClass (by decide)).2.mp habs
  exact absurd hk (by decide)

/-- C6: the default-constructor shim emits nothing exactly when no
non-hidden zero-parameter function named new exists in the list; when the
first such match exists, the output is a blank line, the deprecation
annotation of that function, then its version guard, then the single
forwarding implementation; and for a list holding only a hidden new with
no parameters and a visible new with one parameter, nothing is emitted. -/
theorem C6_default_from_new (env : Env) (name : String)
    (functions : List Info) :
    (declare_default_from_new env name functions = [] ↔
      ∀ f ∈ functions,
        ¬(f.visibility.hidden = false ∧ f.name = "new" ∧
          f.parameters.rust_parameters = [])) ∧
    (∀ func, functions.find? (fun f =>
        !f.visibility.hidden && f.name == "new" &&
          f.parameters.rust_parameters.isEmpty) = some func →
      declare_default_from_new env name functions =
        [""] ++ cfg_deprecated env func.deprecated_version false 0 ++
          version_condition env func.version false 0 ++
          ["impl Default for " ++ name ++ " \x7b",
           "    fn default() -> Self \x7b",
           "        Self::new()",
           "    \x7d",
           "\x7d"]) ∧
    (∀ f1 f2 : Info, f1.visibility.hidden = true →
      f2.visibility.hidden = false → f2.name = "new" →
      f2.parameters.rust_parameters.length = 1 →
      declare_default_from_new env name [f1, f2] = []) := by
  refine ⟨?_, ?_, ?_⟩
  · cases hf : functions.find? (fun f =>
        !f.visibility.hidden && f.name == "new" &&
          f.parameters.rust_parameters.isEmpty) with
    | none =>
      have he : declare_default_from_new env name functions = [] := by
        simp [declare_default_from_new, hf]
      constructor
      · intro _ f hfmem hprop
        exact (List.find?_eq_none.mp hf f hfmem) ((new_pred_iff f).mpr hprop)
      · intro _
        exact he
    | some func =>
      have hne : declare_default_from_new env name functions ≠ [] := by
        simp [declare_default_from_new, hf]
      constructor
      · intro habs
        exact absurd habs hne
      · intro hall
        have hpred := find?_pred_of_eq_some hf
        exact absurd ((new_pred_iff func).mp hpred)
          (hall func (List.mem_of_find?_eq_some hf))
  · intro func hf
    simp [declare_default_from_new, hf]
  · intro f1 f2 h1 h2 h3 h4
    have hp1 : (!f1.visibility.hidden && f1.name == "new" &&
        f1.parameters.rust_parameters.isEmpty) = false := by
      simp [h1]
    have hp2 : (!f2.visibility.hidden && f2.name == "new" &&
        f2.parameters.rust_parameters.isEmpty) = false := by
      cases hl : f2.parameters.rust_parameters with
      | nil => rw [hl] at h4; cases h4
      | cons a as => simp [hl]
    simp [declare_default_from_new, List.find?, hp1, hp2]

/-- C6 witness: with only the hidden new and the one-parameter new,
nothing is emitted; with a qualifying new carrying a version constraint
above the minimum, the implementation is emitted behind its version
guard. -/
theorem C6_default_from_new_example :
    declare_default_from_new env0 ("Widget") [fHiddenNew, fNewWithParam] = [] ∧
    declare_default_from_new env0 ("Widget") [fHiddenNew, fNew] =
      ["",
       "#[cfg(any(feature = \"v3_18\", feature = \"dox\"))]",
       "impl Default for Widget \x7b",
       "    fn default() -> Self \x7b",
       "        Self::new()",
       "    \x7d",
       "\x7d"] :=
  ⟨(C6_default_from_new env0 ("Widget") [fHiddenNew, fNewWithParam]).2.2
      fHiddenNew fNewWithParam rfl rfl rfl rfl,
    ((C6_default_from_new env0 ("Widget") [fHiddenNew, fNew]).2.1 fNew
      (by decide)).trans (by decide)⟩

/-- C7: the import renderer walks the entries in the order of the
collection and keeps that order verbatim in the output; per entry it
emits no feature line for an empty constraint set, one single-feature
line for exactly one constraint, one any-of line for several, then the
version guard line exactly when the version strictly exceeds the
configured minimum, then the use statement. -/
theorem C7_uses_order_and_guards (env : Env) (imports : List ImportEntry) :
    uses env imports =
      "" :: imports.flatMap (fun e =>
        import_entry_lines env e.name e.version e.constraints) ∧
    (∀ name version, import_entry_lines env name version [] =
      version_condition env version false 0 ++ ["use " ++ name ++ ";"]) ∧
    (∀ name version c, import_entry_lines env name version [c] =
      ["#[cfg(feature = \"" ++ c ++ "\")]"] ++
        version_condition env version false 0 ++ ["use " ++ name ++ ";"]) ∧
    (∀ name version c1 c2 cs,
      import_entry_lines env name version (c1 :: c2 :: cs) =
        ["#[cfg(any(" ++
           ", ".intercalate ((c1 :: c2 :: cs).map
             (fun c => "feature = \"" ++ c ++ "\"")) ++ "))]"] ++
          version_condition env version false 0 ++
          ["use " ++ name ++ ";"]) ∧
    version_condition env none false 0 = [] ∧
    (∀ v : Version, Version.le v env.config.min_cfg_version →
      version_condition env (some v) false 0 = []) ∧
    (∀ v : Version, Version.lt env.config.min_cfg_version v →
      (version_condition env (some v) false 0).length = 1) := by
  refine ⟨rfl, fun name version => rfl, fun name version c => rfl,
    fun name version c1 c2 cs => rfl, rfl, fun v h => ?_, fun v h => ?_⟩
  · simp [version_condition, version_condition_string_none_of_le env v false 0 h]
  · simp [version_condition, version_condition_string_some_of_lt env v false 0 h]

/-- C7 witness: two concrete entries rendered in order: the first with
two feature constraints and a version above the minimum, the second with
no constraints and no version. -/
theorem C7_uses_example :
    uses env0
      [{ name := "gdk", version := some { major := 3, minor := 18, patch := 0 },
         constraints := ["v3_18", "dox"] },
       { name := "glib", version := none, constraints := [] }] =
      ["",
       "#[cfg(any(feature = \"v3_18\", feature = \"dox\"))]",
       "#[cfg(any(feature = \"v3_18\", feature = \"dox\"))]",
       "use gdk;",
       "use glib;"] :=
  ((C7_uses_order_and_guards env0
      [{ name := "gdk", version := some { major := 3, minor := 18, patch := 0 },
         constraints := ["v3_18", "dox"] },
       { name := "glib", version := none, constraints := [] }]).1).trans
    (by decide)

/-- C8: with no get-type override the boxed declarator emits a match fn
section holding exactly the copy binding then the free binding and
nothing else; with an override present a get_type binding follows the
free binding. -/
theorem C8_boxed_bindings (env : Env)
    (type_name glib_name copy_fn free_fn : String) (derive : List Derive) :
    define_boxed_type env type_name glib_name copy_fn free_fn none derive =
      ["", "glib_wrapper! \x7b"] ++ derives derive 1 ++
        ["\tpub struct " ++ type_name ++ "(Boxed<" ++
           env.main_sys_crate_name ++ "::" ++ glib_name ++ ">);",
         "",
         "\tmatch fn \x7b",
         "\t\tcopy => |ptr| " ++ env.main_sys_crate_name ++ "::" ++ copy_fn ++
           "(mut_override(ptr)),",
         "\t\tfree => |ptr| " ++ env.main_sys_crate_name ++ "::" ++ free_fn ++
           "(ptr),",
         "\t\x7d", "\x7d"] ∧
    (∀ g : String,
      define_boxed_type env type_name glib_name copy_fn free_fn (some g) derive =
        ["", "glib_wrapper! \x7b"] ++ derives derive 1 ++
          ["\tpub struct " ++ type_name ++ "(Boxed<" ++
             env.main_sys_crate_name ++ "::" ++ glib_name ++ ">);",
           "",
           "\tmatch fn \x7b",
           "\t\tcopy => |ptr| " ++ env.main_sys_crate_name ++ "::" ++ copy_fn ++
             "(mut_override(ptr)),",
           "\t\tfree => |ptr| " ++ env.main_sys_crate_name ++ "::" ++ free_fn ++
             "(ptr),",
           "\t\tget_type => || " ++ env.main_sys_crate_name ++ "::" ++ g ++
             "(),",
           "\t\x7d", "\x7d"]) := by
  constructor
  · simp [define_boxed_type]
  · intro g
    simp [define_boxed_type]

/-- C8 witness: the concrete boxed descriptor with no override yields
exactly the copy and free bindings and no get_type line. -/
theorem C8_boxed_bindings_example :
    define_boxed_type env0 ("Rectangle") ("GdkRectangle")
        ("gdk_rectangle_copy") ("gdk_rectangle_free") none [] =
      ["", "glib_wrapper! \x7b",
       "\tpub struct Rectangle(Boxed<gtk_sys::GdkRectangle>);",
       "",
       "\tmatch fn \x7b",
       "\t\tcopy => |ptr| gtk_sys::gdk_rectangle_copy(mut_override(ptr)),",
       "\t\tfree => |ptr| gtk_sys::gdk_rectangle_free(ptr),",
       "\t\x7d", "\x7d"] :=
  ((C8_boxed_bindings env0 ("Rectangle") ("GdkRectangle")
      ("gdk_rectangle_copy") ("gdk_rectangle_free") []).1).trans (by decide)

/-- C9: against a sink that accepts every write, each declaration emitter
writes its full line list and returns success; against a sink whose
write number k fails with a given error, the emitter returns exactly that
error and the sink holds exactly the first k lines, so no write happens
after the failing one. Stated for the object/interface and the boxed
emitters named by the claim, and for the auto-boxed and shared emitters
as well. -/
theorem C9_write_error_propagation {e : Type} (err : e) (env : Env)
    (tn gn : String) (gcn rcn : Option String) (gfn : String)
    (ii : Bool) (ps : List StatusedTypeId)
    (cf ff : String) (gt : Option String) (ds : List Derive)
    (gtf rf uf : String) :
    (emit_lines err (define_object_type env tn gn gcn rcn gfn ii ps) none =
      (define_object_type env tn gn gcn rcn gfn ii ps, Except.ok ())) ∧
    (∀ k, k < (define_object_type env tn gn gcn rcn gfn ii ps).length →
      emit_lines err (define_object_type env tn gn gcn rcn gfn ii ps) (some k) =
        ((define_object_type env tn gn gcn rcn gfn ii ps).take k,
          Except.error err)) ∧
    (emit_lines err (define_boxed_type env tn gn cf ff gt ds) none =
      (define_boxed_type env tn gn cf ff gt ds, Except.ok ())) ∧
    (∀ k, k < (define_boxed_type env tn gn cf ff gt ds).length →
      emit_lines err (define_boxed_type env tn gn cf ff gt ds) (some k) =
        ((define_boxed_type env tn gn cf ff gt ds).take k, Except.error err)) ∧
    (emit_lines err (define_auto_boxed_type env tn gn gtf ds) none =
      (define_auto_boxed_type env tn gn gtf ds, Except.ok ())) ∧
    (∀ k, k < (define_auto_boxed_type env tn gn gtf ds).length →
      emit_lines err (define_auto_boxed_type env tn gn gtf ds) (some k) =
        ((define_auto_boxed_type env tn gn gtf ds).take k, Except.error err)) ∧
    (emit_lines err (define_shared_type env tn gn rf uf gt ds) none =
      (define_shared_type env tn gn rf uf gt ds, Except.ok ())) ∧
    (∀ k, k < (define_shared_type env tn gn rf uf gt ds).length →
      emit_lines err (define_shared_type env tn gn rf uf gt ds) (some k) =
        ((define_shared_type env tn gn rf uf gt ds).take k, Except.error err)) :=
  ⟨emit_lines_ok err _, fun k h => emit_lines_fail err _ k h,
   emit_lines_ok err _, fun k h => emit_lines_fail err _ k h,
   emit_lines_ok err _, fun k h => emit_lines_fail err _ k h,
   emit_lines_ok err _, fun k h => emit_lines_fail err _ k h⟩

/-- C9 witness: the concrete object emitter against a sink failing at its
fourth write returns the error value 7 and the sink holds exactly the
first three lines. -/
theorem C9_write_error_example :
    emit_lines 7 (define_object_type env0 ("Window") ("GtkWindow") none none
        ("gtk_window_get_type") false parents0) (some 3) =
      ((define_object_type env0 ("Window") ("GtkWindow") none none
          ("gtk_window_get_type") false parents0).take 3,
        Except.error 7) :=
  (C9_write_error_propagation 7 env0 ("Window") ("GtkWindow") none none
      ("gtk_window_get_type") false parents0 ("c") ("f") none []
      ("g") ("r") ("u")).2.1 3 (by decide)

/-- C10: derive lines are one line per derive specification at one indent
unit, an unconditional derive attribute or a conditionally applied one,
an empty list yielding no lines; and in the boxed, auto-boxed and shared
declarators those lines sit between the wrapper-opening line and the pub
struct line. -/
theorem C10_derive_attribute_lines (env : Env)
    (type_name glib_name copy_fn free_fn ref_fn unref_fn gtf : String)
    (gt : Option String) (ds : List Derive) :
    derives [] 1 = [] ∧
    (derives ds 1).length = ds.length ∧
    (∀ d rest, derives (d :: rest) 1 =
      ("\t" ++ (match d.cfg_condition with
        | some condition =>
          "#[cfg_attr(" ++ condition ++ ", derive(" ++
            ", ".intercalate d.names ++ "))]"
        | none => "#[derive(" ++ ", ".intercalate d.names ++ ")]")) ::
        derives rest 1) ∧
    (∃ rest1, define_boxed_type env type_name glib_name copy_fn free_fn gt ds =
      ["", "glib_wrapper! \x7b"] ++ derives ds 1 ++
        ("\tpub struct " ++ type_name ++ "(Boxed<" ++
           env.main_sys_crate_name ++ "::" ++ glib_name ++ ">);") :: rest1) ∧
    (∃ rest2, define_auto_boxed_type env type_name glib_name gtf ds =
      ["", "glib_wrapper! \x7b"] ++ derives ds 1 ++
        ("\tpub struct " ++ type_name ++ "(Boxed<" ++
           env.main_sys_crate_name ++ "::" ++ glib_name ++ ">);") :: rest2) ∧
    (∃ rest3, define_shared_type env type_name glib_name ref_fn unref_fn gt ds =
      ["", "glib_wrapper! \x7b"] ++ derives ds 1 ++
        ("\tpub struct " ++ type_name ++ "(Shared<" ++
           env.main_sys_crate_name ++ "::" ++ glib_name ++ ">);") :: rest3) := by
  refine ⟨rfl, List.length_map _ _, fun d rest => rfl, ?_, ?_, ?_⟩
  · refine ⟨["", "\tmatch fn \x7b",
      "\t\tcopy => |ptr| " ++ env.main_sys_crate_name ++ "::" ++ copy_fn ++
        "(mut_override(ptr)),",
      "\t\tfree => |ptr| " ++ env.main_sys_crate_name ++ "::" ++ free_fn ++
        "(ptr),"] ++
      (match gt with
       | some g =>
         ["\t\tget_type => || " ++ env.main_sys_crate_name ++ "::" ++ g ++ "(),"]
       | none => []) ++ ["\t\x7d", "\x7d"], ?_⟩
    simp [define_boxed_type]
  · refine ⟨["", "\tmatch fn \x7b",
      "\t\tcopy => |ptr| gobject_sys::g_boxed_copy(" ++
        env.main_sys_crate_name ++ "::" ++ gtf ++
        "(), ptr as *mut _) as *mut " ++ env.main_sys_crate_name ++ "::" ++
        glib_name ++ ",",
      "\t\tfree => |ptr| gobject_sys::g_boxed_free(" ++
        env.main_sys_crate_name ++ "::" ++ gtf ++ "(), ptr as *mut _),",
      "\t\tget_type => || " ++ env.main_sys_crate_name ++ "::" ++ gtf ++ "(),",
      "\t\x7d", "\x7d"], ?_⟩
    simp [define_auto_boxed_type]
  · refine ⟨["", "\tmatch fn \x7b",
      "\t\tref => |ptr| " ++ env.main_sys_crate_name ++ "::" ++ ref_fn ++
        "(ptr),",
      "\t\tunref => |ptr| " ++ env.main_sys_crate_name ++ "::" ++ unref_fn ++
        "(ptr),"] ++
      (match gt with
       | some g =>
         ["\t\tget_type => || " ++ env.main_sys_crate_name ++ "::" ++ g ++ "(),"]
       | none => []) ++ ["\t\x7d", "\x7d"], ?_⟩
    simp [define_shared_type]

/-- C10 witness: two concrete derive specifications, one unconditional
and one feature-conditioned, rendered inside a concrete shared wrapper
block between the opening line and the pub struct line. -/
theorem C10_derive_attribute_example :
    derives [{ names := ["Debug", "Clone"], cfg_condition := none },
             { names := ["Hash"], cfg_condition := some ("feature = \"v3_18\"") }]
        1 =
      ["\t#[derive(Debug, Clone)]",
       "\t#[cfg_attr(feature = \"v3_18\", derive(Hash))]"] ∧
    define_shared_type env0 ("Event") ("GdkEvent") ("gdk_event_ref")
        ("gdk_event_unref") none
        [{ names := ["Debug", "Clone"], cfg_condition := none }] =
      ["", "glib_wrapper! \x7b",
       "\t#[derive(Debug, Clone)]",
       "\tpub struct Event(Shared<gtk_sys::GdkEvent>);",
       "",
       "\tmatch fn \x7b",
       "\t\tref => |ptr| gtk_sys::gdk_event_ref(ptr),",
       "\t\tunref => |ptr| gtk_sys::gdk_event_unref(ptr),",
       "\t\x7d", "\x7d"] := by
  constructor
  · exact ((C10_derive_attribute_lines env0 ("Event") ("GdkEvent") ("c") ("f")
        ("r") ("u") ("g") none
        [{ names := ["Debug", "Clone"], cfg_condition := none },
         { names := ["Hash"], cfg_condition := some ("feature = \"v3_18\"") }]).2.2.1
      { names := ["Debug", "Clone"], cfg_condition := none }
      [{ names := ["Hash"], cfg_condition := some ("feature = \"v3_18\"") }]).trans
      (by decide)
  · decide

end Gir
